import Mathlib

/-!
Verification of the agent-orchestration core of the `ai_saeo` backend
(`backend/app/agents/orchestrator.py`, `backend/app/agents/critic.py`,
`backend/app/utils/helpers.py`).

The Python code is shallowly embedded: Python runtime values are modelled by
`PyVal`; operations that can raise (`d.get`, `d[k]`, `len`, iteration,
membership, comparison) return `Except String`, carrying the error message of
the exception.  External collaborators (AI completion services, third-party
data APIs) are opaque per the design and are passed in as oracle functions
returning `Except String PyVal` (an `.error` models the collaborator raising).
Log strings and timestamps carry wall-clock data and are threaded as opaque
string parameters; no verified property concerns their content.
-/

/-! ## Python value model -/

/-- A Python runtime value as used by the orchestrator code: `None`, booleans,
ints, floats (JSON decimals kept exactly as mantissa × 10^exponent, plus the
`NaN`/`Infinity` constants accepted by `json.loads`; binary rounding of the
Python `float` type is not modelled — no verified property computes with
float values), strings, lists and (insertion-ordered) dicts. -/
inductive PyVal where
  | none : PyVal
  | bool : Bool → PyVal
  | int : Int → PyVal
  | float : Int → Int → PyVal
  | nan : PyVal
  | inf : Bool → PyVal
  | str : String → PyVal
  | list : List PyVal → PyVal
  | dict : List (String × PyVal) → PyVal

def emptyDict : PyVal := PyVal.dict []

/-- Lookup in an insertion-ordered association list (Python dict). -/
def assocFind : List (String × PyVal) → String → Option PyVal
  | [], _ => Option.none
  | (k, v) :: rest, key => if k = key then some v else assocFind rest key

/-- Python dict item assignment: replace in place if the key exists
(keeping its position), otherwise append. -/
def assocSet : List (String × PyVal) → String → PyVal → List (String × PyVal)
  | [], key, val => [(key, val)]
  | (k, v) :: rest, key, val =>
      if k = key then (k, val) :: rest else (k, v) :: assocSet rest key val

def assocHas (l : List (String × PyVal)) (key : String) : Bool :=
  (assocFind l key).isSome

def typeName : PyVal → String
  | .none => "NoneType"
  | .bool _ => "bool"
  | .int _ => "int"
  | .float _ _ => "float"
  | .nan => "float"
  | .inf _ => "float"
  | .str _ => "str"
  | .list _ => "list"
  | .dict _ => "dict"

/-- Python `v.get(key, dflt)`: only dicts have `.get`; anything else raises
`AttributeError`. -/
def pyGet (v : PyVal) (key : String) (dflt : PyVal) : Except String PyVal :=
  match v with
  | .dict l => .ok ((assocFind l key).getD dflt)
  | _ => .error ("AttributeError: " ++ typeName v ++ " object has no attribute get")

/-- Python one-argument `v.get(key)` (default `None`). -/
def pyGetN (v : PyVal) (key : String) : Except String PyVal :=
  pyGet v key PyVal.none

/-- Python `v[key]` with a string subscript. -/
def pyItem (v : PyVal) (key : String) : Except String PyVal :=
  match v with
  | .dict l =>
      match assocFind l key with
      | some x => .ok x
      | Option.none => .error ("KeyError: " ++ key)
  | .list _ => .error "TypeError: list indices must be integers"
  | .str _ => .error "TypeError: string indices must be integers"
  | _ => .error ("TypeError: " ++ typeName v ++ " object is not subscriptable")

/-- Python `v[key] = val`. -/
def pySet (v : PyVal) (key : String) (val : PyVal) : Except String PyVal :=
  match v with
  | .dict l => .ok (.dict (assocSet l key val))
  | _ => .error ("TypeError: " ++ typeName v ++ " object does not support item assignment")

/-- Python truthiness. -/
def truthy : PyVal → Bool
  | .none => false
  | .bool b => b
  | .int n => n != 0
  | .float m _ => m != 0
  | .nan => true
  | .inf _ => true
  | .str s => s != ""
  | .list l => !l.isEmpty
  | .dict l => !l.isEmpty

/-- Python `len(v)`. -/
def pyLen (v : PyVal) : Except String Int :=
  match v with
  | .str s => .ok s.length
  | .list l => .ok l.length
  | .dict l => .ok l.length
  | _ => .error ("TypeError: object of type " ++ typeName v ++ " has no len")

/-- Python `for x in v`: lists yield elements, strings their characters,
dicts their keys; everything else raises `TypeError`. -/
def pyIterElems (v : PyVal) : Except String (List PyVal) :=
  match v with
  | .list l => .ok l
  | .str s => .ok (s.toList.map (fun c => PyVal.str (String.mk [c])))
  | .dict l => .ok (l.map (fun kv => PyVal.str kv.1))
  | _ => .error ("TypeError: " ++ typeName v ++ " object is not iterable")

def strSub (needle : List Char) : List Char → Bool
  | [] => needle.isEmpty
  | c :: rest => needle.isPrefixOf (c :: rest) || strSub needle rest

/-- Python `needle in v` for a string needle: key membership for dicts,
element equality for lists, substring for strings; `TypeError` otherwise
(in particular for `None`). -/
def pyContains (v : PyVal) (needle : String) : Except String Bool :=
  match v with
  | .dict l => .ok (assocHas l needle)
  | .list l => .ok (l.any (fun x => match x with | .str s => s == needle | _ => false))
  | .str s => .ok (strSub needle.toList s.toList)
  | _ => .error ("TypeError: argument of type " ++ typeName v ++ " is not iterable")

/-- Python `v[:n]`. -/
def pySliceTo (v : PyVal) (n : Nat) : Except String PyVal :=
  match v with
  | .list l => .ok (.list (l.take n))
  | .str s => .ok (.str (String.mk (s.toList.take n)))
  | _ => .error ("TypeError: " ++ typeName v ++ " object is not subscriptable")

/-- Python `v[0]`. -/
def pyIndex0 (v : PyVal) : Except String PyVal :=
  match v with
  | .list l =>
      match l with
      | x :: _ => .ok x
      | [] => .error "IndexError: list index out of range"
  | .str s =>
      match s.toList with
      | c :: _ => .ok (.str (String.mk [c]))
      | [] => .error "IndexError: string index out of range"
  | _ => .error ("TypeError: " ++ typeName v ++ " object is not subscriptable")

/-- Python `v[-1]`. -/
def pyLast (v : PyVal) : Except String PyVal :=
  match v with
  | .list l =>
      match l.getLast? with
      | some x => .ok x
      | Option.none => .error "IndexError: list index out of range"
  | .str s =>
      match s.toList.getLast? with
      | some c => .ok (.str (String.mk [c]))
      | Option.none => .error "IndexError: string index out of range"
  | .dict _ => .error "KeyError: -1"
  | _ => .error ("TypeError: " ++ typeName v ++ " object is not subscriptable")

def intPow10 : Nat → Int
  | 0 => 1
  | n + 1 => 10 * intPow10 n

/-- Python `v > bound` against an int: ints, bools and floats are orderable,
everything else raises `TypeError`. -/
def pyGtInt (v : PyVal) (bound : Int) : Except String Bool :=
  match v with
  | .int n => .ok (decide (bound < n))
  | .bool b => .ok (decide (bound < (if b then (1 : Int) else 0)))
  | .float m e =>
      .ok (if 0 ≤ e then decide (bound < m * intPow10 e.toNat)
           else decide (bound * intPow10 (-e).toNat < m))
  | .nan => .ok false
  | .inf neg => .ok (!neg)
  | _ => .error ("TypeError: gt not supported between instances of " ++ typeName v ++ " and int")

/-- Python `v == s` for a string literal `s` (total, no exception). -/
def pyEqStr (v : PyVal) (s : String) : Bool :=
  match v with
  | .str t => t == s
  | _ => false

/-- Python `v or {}` (used for `options = options or {}`). -/
def pyOrDict (v : PyVal) : PyVal :=
  if truthy v then v else emptyDict

/-! ## `helpers.extract_json`: JSON parsing (`json.loads`) and the
markdown-block fallback regex -/

def jsonWs (c : Char) : Bool :=
  c = ' ' || c = '\t' || c = '\n' || c = '\r'

def digitsToNat (ds : List Char) : Nat :=
  ds.foldl (fun a c => a * 10 + (c.toNat - 48)) 0

def takeDigits : List Char → (List Char × List Char)
  | [] => ([], [])
  | c :: rest =>
      if c.isDigit then
        let p := takeDigits rest
        (c :: p.1, p.2)
      else ([], c :: rest)

def hexVal (c : Char) : Option Nat :=
  if c.isDigit then some (c.toNat - 48)
  else if 'a' ≤ c && c ≤ 'f' then some (c.toNat - 87)
  else if 'A' ≤ c && c ≤ 'F' then some (c.toNat - 55)
  else Option.none

/-- JSON string body parser (after the opening quote): strict mode of
`json.loads` — raw control characters are rejected, escapes are decoded. -/
def parseStrChars : Nat → List Char → Option (List Char × List Char)
  | 0, _ => Option.none
  | _ + 1, [] => Option.none
  | fuel + 1, c :: rest =>
      if c = '"' then some ([], rest)
      else if c = '\\' then
        match rest with
        | [] => Option.none
        | e :: rest2 =>
            if e = 'u' then
              match rest2 with
              | a :: b :: c2 :: d :: rest3 =>
                  match hexVal a, hexVal b, hexVal c2, hexVal d with
                  | some ha, some hb, some hc, some hd =>
                      (parseStrChars fuel rest3).map
                        (fun p => (Char.ofNat (((ha * 16 + hb) * 16 + hc) * 16 + hd) :: p.1, p.2))
                  | _, _, _, _ => Option.none
              | _ => Option.none
            else
              let dec : Option Char :=
                if e = '"' then some '"'
                else if e = '\\' then some '\\'
                else if e = '/' then some '/'
                else if e = 'b' then some (Char.ofNat 8)
                else if e = 'f' then some (Char.ofNat 12)
                else if e = 'n' then some '\n'
                else if e = 'r' then some '\r'
                else if e = 't' then some '\t'
                else Option.none
              match dec with
              | some d => (parseStrChars fuel rest2).map (fun p => (d :: p.1, p.2))
              | Option.none => Option.none
      else if c.toNat < 32 then Option.none
      else (parseStrChars fuel rest).map (fun p => (c :: p.1, p.2))

/-- JSON number parser: strict grammar of `json.loads` (no leading zeros,
nonempty fraction/exponent digits). Integer tokens become `PyVal.int`; tokens
with a fraction or exponent become `PyVal.float mantissa exp10`. -/
def parseNum (cs : List Char) : Option (PyVal × List Char) :=
  let sign : Int × List Char := match cs with
    | '-' :: r => (-1, r)
    | _ => (1, cs)
  match sign.2 with
  | [] => Option.none
  | c :: _ =>
      if !c.isDigit then Option.none
      else
        let ip := takeDigits sign.2
        if ip.1.length > 1 && ip.1.head? = some '0' then Option.none
        else
          let fracp : Option (List Char × List Char) := match ip.2 with
            | '.' :: r =>
                let fp := takeDigits r
                if fp.1.isEmpty then Option.none else some fp
            | _ => some ([], ip.2)
          match fracp with
          | Option.none => Option.none
          | some (fds, rest2) =>
              let expp : Option (Option Int × List Char) := match rest2 with
                | e :: r =>
                    if e = 'e' || e = 'E' then
                      let es : Int × List Char := match r with
                        | '-' :: r2 => (-1, r2)
                        | '+' :: r2 => (1, r2)
                        | _ => (1, r)
                      let ep := takeDigits es.2
                      if ep.1.isEmpty then Option.none
                      else some (some (es.1 * (digitsToNat ep.1 : Int)), ep.2)
                    else some (Option.none, rest2)
                | [] => some (Option.none, rest2)
              match expp with
              | Option.none => Option.none
              | some (exv, rest3) =>
                  if fds.isEmpty && exv.isNone then
                    some (PyVal.int (sign.1 * (digitsToNat ip.1 : Int)), rest3)
                  else
                    some (PyVal.float (sign.1 * (digitsToNat (ip.1 ++ fds) : Int))
                      ((exv.getD 0) - (fds.length : Int)), rest3)

/-- One comma-separated tail of a JSON array, elements parsed by `pv`. -/
def parseArrTail (pv : List Char → Option (PyVal × List Char)) :
    Nat → List Char → Option (List PyVal × List Char)
  | 0, _ => Option.none
  | fuel + 1, cs =>
      match pv cs with
      | Option.none => Option.none
      | some (v, r) =>
          match r.dropWhile jsonWs with
          | ',' :: r2 => (parseArrTail pv fuel r2).map (fun p => (v :: p.1, p.2))
          | ']' :: r2 => some ([v], r2)
          | _ => Option.none

/-- One comma-separated tail of a JSON object, values parsed by `pv`. -/
def parseObjTail (pv : List Char → Option (PyVal × List Char)) :
    Nat → List Char → Option (List (String × PyVal) × List Char)
  | 0, _ => Option.none
  | fuel + 1, cs =>
      match cs.dropWhile jsonWs with
      | '"' :: r =>
          match parseStrChars (r.length + 1) r with
          | some (k, r2) =>
              match r2.dropWhile jsonWs with
              | ':' :: r3 =>
                  match pv r3 with
                  | some (v, r4) =>
                      match r4.dropWhile jsonWs with
                      | ',' :: r5 =>
                          (parseObjTail pv fuel r5).map
                            (fun p => ((String.mk k, v) :: p.1, p.2))
                      | c2 :: r5 =>
                          if c2 = Char.ofNat 125 then some ([(String.mk k, v)], r5)
                          else Option.none
                      | [] => Option.none
                  | Option.none => Option.none
              | _ => Option.none
          | Option.none => Option.none
      | _ => Option.none

/-- Python dict construction from parsed JSON members: later duplicate keys
overwrite earlier ones. -/
def dictOfPairs (ps : List (String × PyVal)) : List (String × PyVal) :=
  ps.foldl (fun acc kv => assocSet acc kv.1 kv.2) []

/-- JSON value parser (the scanner of `json.loads`), fuel-structural so that
it reduces definitionally. -/
def parseVal : Nat → List Char → Option (PyVal × List Char)
  | 0, _ => Option.none
  | fuel + 1, cs =>
      match cs.dropWhile jsonWs with
      | [] => Option.none
      | c :: rest =>
          if c = '"' then
            (parseStrChars (rest.length + 1) rest).map
              (fun p => (PyVal.str (String.mk p.1), p.2))
          else if c = '[' then
            match rest.dropWhile jsonWs with
            | ']' :: r => some (PyVal.list [], r)
            | _ =>
                (parseArrTail (parseVal fuel) (rest.length + 1) rest).map
                  (fun p => (PyVal.list p.1, p.2))
          else if c = Char.ofNat 123 then
            match rest.dropWhile jsonWs with
            | c2 :: r =>
                if c2 = Char.ofNat 125 then some (PyVal.dict [], r)
                else
                  (parseObjTail (parseVal fuel) (rest.length + 1) rest).map
                    (fun p => (PyVal.dict (dictOfPairs p.1), p.2))
            | [] => Option.none
          else if (String.toList "true").isPrefixOf (c :: rest) then
            some (PyVal.bool true, (c :: rest).drop 4)
          else if (String.toList "false").isPrefixOf (c :: rest) then
            some (PyVal.bool false, (c :: rest).drop 5)
          else if (String.toList "null").isPrefixOf (c :: rest) then
            some (PyVal.none, (c :: rest).drop 4)
          else if (String.toList "NaN").isPrefixOf (c :: rest) then
            some (PyVal.nan, (c :: rest).drop 3)
          else if (String.toList "Infinity").isPrefixOf (c :: rest) then
            some (PyVal.inf false, (c :: rest).drop 8)
          else if (String.toList "-Infinity").isPrefixOf (c :: rest) then
            some (PyVal.inf true, (c :: rest).drop 9)
          else parseNum (c :: rest)

/-- `json.loads`: parse a complete JSON document, allowing surrounding
whitespace; anything else raises `JSONDecodeError` (modelled as `.error ()`). -/
def jsonLoads (s : String) : Except Unit PyVal :=
  let cs := s.toList
  match parseVal (cs.length + 1) cs with
  | some (v, rest) =>
      if (rest.dropWhile jsonWs).isEmpty then .ok v else .error ()
  | Option.none => .error ()

def tick : Char := Char.ofNat 96

def tbt : List Char := [tick, tick, tick]

/-- Regex `\s`: space, tab, newline, carriage return, form feed, vertical tab. -/
def regexWs (c : Char) : Bool :=
  c = ' ' || c = '\t' || c = '\n' || c = '\r' || c = Char.ofNat 12 || c = Char.ofNat 11

/-- The lazy group `(.*?)` of the markdown-block regex: the shortest prefix
after which `\s*` followed by three backticks matches. -/
def mdFindEnd : List Char → Option (List Char)
  | [] => Option.none
  | c :: rest =>
      if tbt.isPrefixOf ((c :: rest).dropWhile regexWs) then some []
      else (mdFindEnd rest).map (fun g => c :: g)

/-- Attempt the markdown regex match at a position starting with three
backticks: consume the optional `json` tag and greedy `\s*`, then find the
lazy group. -/
def mdMatchAt (cs : List Char) : Option (List Char) :=
  let a1 := cs.drop 3
  let a2 := if (String.toList "json").isPrefixOf a1 then a1.drop 4 else a1
  mdFindEnd (a2.dropWhile regexWs)

/-- `re.search` for the pattern ```` ```(?:json)?\s*(.*?)\s*``` ```` with
`re.DOTALL`: leftmost position admitting a match wins. -/
def mdSearch : List Char → Option (List Char)
  | [] => Option.none
  | c :: rest =>
      if tbt.isPrefixOf (c :: rest) then
        match mdMatchAt (c :: rest) with
        | some g => some g
        | Option.none => mdSearch rest
      else mdSearch rest

/-- `helpers.extract_json`: try `json.loads` on the whole text; on failure try
the first markdown code block; if that also fails, raise `JSONDecodeError`. -/
def extract_json (text : String) : Except Unit PyVal :=
  match jsonLoads text with
  | .ok v => .ok v
  | .error _ =>
      match mdSearch text.toList with
      | some inner =>
          match jsonLoads (String.mk inner) with
          | .ok v => .ok v
          | .error _ => .error ()
      | Option.none => .error ()

/-! ## `critic.py`: the Critic agent -/

/-- `CriticAgent.max_iterations` (set in `__init__`). -/
def criticMaxIterations : Int := 3

/-- `CriticAgent._mock_critique`: the fixed fallback critique. -/
def mockCritique : PyVal :=
  PyVal.dict [("score", .int 85), ("passed", .bool false),
    ("feedback", .str "Mock Critique: Add more specific examples and data points."),
    ("aeo_issues", .list [.str "Low entity density"])]

/-- The forced-pass critique returned once the iteration budget is exceeded. -/
def forcedPassCritique : PyVal :=
  PyVal.dict [("score", .int 70), ("passed", .bool true),
    ("feedback", .str "Max iterations reached. Manual review recommended."),
    ("status", .str "completed_with_warnings")]

/-- `CriticAgent.critique_content`.  The evaluation collaborator
(`self.ai_service.client` plus the chat-completion call) is the oracle
`client`: `Option.none` models a missing client, `some (.error e)` a raised
exception, `some (.ok s)` a response with message content `s`.  The prompt is
built from `brief.get("target_keyword")`, `brief.get("tone")` and
`draft[:4000]` before the `try` block — the two `.get` calls can raise there
(string slicing cannot); the prompt text itself is inspected by no property
and is not materialized.  The second component counts invocations of the
collaborator. -/
def critique_content (client : Option (Except String String)) (draft : String)
    (brief : PyVal) (iteration : Int) : Except String PyVal × Nat :=
  if iteration > criticMaxIterations then (.ok forcedPassCritique, 0)
  else
    match pyGetN brief "target_keyword" with
    | .error e => (.error e, 0)
    | .ok _ =>
        match pyGetN brief "tone" with
        | .error e => (.error e, 0)
        | .ok _ =>
            let _trunc := draft.take 4000
            match client with
            | Option.none => (.ok mockCritique, 0)
            | some (.error _) => (.ok mockCritique, 1)
            | some (.ok resp) =>
                match extract_json resp with
                | .ok v => (.ok v, 1)
                | .error _ => (.ok mockCritique, 1)

/-! ## `orchestrator.py`: the Content Revision Loop and
`ContentCreationAgent.run` -/

/-- Result of the adversarial loop: the final `draft_content` and
`critic_logs` (or the propagated exception), plus the number of Critic and
Reviser (`rewrite_content`) invocations made, counted even on the path that
raises. -/
structure LoopOut where
  out : Except String (PyVal × List PyVal)
  criticCalls : Nat
  reviserCalls : Nat

/-- The `while iteration <= max_iterations` loop of `ContentCreationAgent.run`
(the Adversarial Critic Loop).  `fuel` encodes the while guard: it is
maintained as `max_iterations - iteration + 1`, so `fuel = 0` is exactly
`iteration > max_iterations` (exit without a further Critic call).  The
`revision_prompt` built from `critique.get("feedback")` and
`critique.get("hard_feedback")` is dead code in the source: the Reviser call
passes only the current draft and the literal style `improve`. -/
def revisionLoop (critic : PyVal → PyVal → Int → Except String PyVal)
    (reviser : PyVal → String → Except String PyVal) (brief : PyVal) :
    Nat → Int → PyVal → List PyVal → LoopOut
  | 0, _, draft, logs => ⟨.ok (draft, logs), 0, 0⟩
  | fuel + 1, iteration, draft, logs =>
      match critic draft brief iteration with
      | .error e => ⟨.error e, 1, 0⟩
      | .ok critique =>
          match pyGetN critique "score" with
          | .error e => ⟨.error e, 1, 0⟩
          | .ok sc =>
              match pyGetN critique "feedback" with
              | .error e => ⟨.error e, 1, 0⟩
              | .ok fb =>
                  let logs2 := logs ++
                    [PyVal.dict [("iteration", .int iteration), ("score", sc), ("feedback", fb)]]
                  match pyGet critique "passed" (.bool false) with
                  | .error e => ⟨.error e, 1, 0⟩
                  | .ok passed =>
                      if truthy passed then ⟨.ok (draft, logs2), 1, 0⟩
                      else
                        match reviser draft "improve" with
                        | .error e => ⟨.error e, 1, 1⟩
                        | .ok revision =>
                            match pyGet revision "rewritten" draft with
                            | .error e => ⟨.error e, 1, 1⟩
                            | .ok draft2 =>
                                let r := revisionLoop critic reviser brief fuel
                                  (iteration + 1) draft2 logs2
                                ⟨r.out, r.criticCalls + 1, r.reviserCalls + 1⟩

/-- The collaborators of `ContentCreationAgent.run`: the AEO analyzer, the
content engine services, and the Critic (each `.error` models the call
raising). -/
structure ContentOracles where
  analyze_winning_pattern : String → Except String PyVal
  generate_content_brief : String → String → Except String PyVal
  create_outline : String → String → Except String PyVal
  generate_titles : String → Int → Except String PyVal
  create_content : String → String → PyVal → Except String PyVal
  rewrite_content : PyVal → String → Except String PyVal
  generate_schema : String → PyVal → Except String PyVal
  critique_content : PyVal → PyVal → Int → Except String PyVal

/-- `titles[0].get("title") if titles else topic` (schema headline). -/
def schemaHeadline (titles : PyVal) (topic : String) : Except String PyVal :=
  if truthy titles then do
    let t0 ← pyIndex0 titles
    pyGetN t0 "title"
  else .ok (.str topic)

/-- Sequencing helper for steps before the revision loop: an exception
propagates with zero collaborator-call counts. -/
def stepZ {α : Type} (r : Except String α)
    (k : α → Except String PyVal × Nat × Nat) : Except String PyVal × Nat × Nat :=
  match r with
  | .error e => (.error e, 0, 0)
  | .ok a => k a

/-- Sequencing helper for steps after the revision loop: an exception
propagates keeping the loop's call counts. -/
def stepC {α : Type} (cc rc : Nat) (r : Except String α)
    (k : α → Except String PyVal × Nat × Nat) : Except String PyVal × Nat × Nat :=
  match r with
  | .error e => (.error e, cc, rc)
  | .ok a => k a

/-- `ContentCreationAgent.run`.  Returns the result (or propagated exception)
together with the number of Critic and Reviser invocations. -/
def contentCreationRun (o : ContentOracles) (topic keyword : String) (options : PyVal) :
    Except String PyVal × Nat × Nat :=
  let opts := pyOrDict options
  stepZ (o.analyze_winning_pattern keyword) fun aeoDna =>
  stepZ (o.generate_content_brief topic keyword) fun brief0 =>
  stepZ (pySet brief0 "aeo_dna" aeoDna) fun brief =>
  stepZ (o.create_outline topic keyword) fun outline =>
  stepZ (o.generate_titles keyword 3) fun titles =>
  stepZ (pyGet opts "word_count" (.int 1500)) fun wordCount =>
  stepZ (pyGet opts "generate_content" (.bool true)) fun gc =>
  if truthy gc then
    stepZ (o.create_content topic keyword wordCount) fun draft0 =>
    stepZ (pyGet draft0 "content" (.str "")) fun d0 =>
    let lr := revisionLoop o.critique_content o.rewrite_content brief 3 1 d0 []
    stepC lr.criticCalls lr.reviserCalls lr.out fun dl =>
    stepC lr.criticCalls lr.reviserCalls (pySet draft0 "content" dl.1) fun draft1 =>
    stepC lr.criticCalls lr.reviserCalls (pySet draft1 "critic_history" (.list dl.2)) fun draft2 =>
    stepC lr.criticCalls lr.reviserCalls (schemaHeadline titles topic) fun headline =>
    stepC lr.criticCalls lr.reviserCalls
      (o.generate_schema "Article"
        (.dict [("headline", headline), ("description", .str "Meta description")])) fun schema =>
    (.ok (.dict [("brief", brief), ("outline", outline), ("titles", titles),
      ("content", if truthy dl.1 then draft2 else PyVal.none),
      ("schema", schema), ("workflow_completed", .bool true)]),
     lr.criticCalls, lr.reviserCalls)
  else
    stepZ (schemaHeadline titles topic) fun headline =>
    stepZ (o.generate_schema "Article"
      (.dict [("headline", headline), ("description", .str "Meta description")])) fun schema =>
    (.ok (.dict [("brief", brief), ("outline", outline), ("titles", titles),
      ("content", PyVal.none),
      ("schema", schema), ("workflow_completed", .bool true)]), 0, 0)

/-! ## The other agent workflows -/

structure AuditOracles where
  full_audit : String → Except String PyVal

/-- `[i for i in issues if i.get("severity") == sev]`: sequential, the first
failing `.get` raises. -/
def sevFilter (sev : String) : List PyVal → Except String (List PyVal)
  | [] => .ok []
  | i :: rest => do
      let s ← pyGetN i "severity"
      let tail ← sevFilter sev rest
      return (if pyEqStr s sev then i :: tail else tail)

/-- `SEOAuditAgent.run`. -/
def seoAuditRun (o : AuditOracles) (url : String) : Except String PyVal := do
  let audit ← o.full_audit url
  let issues ← pyGet audit "issues" (.list [])
  let issueList ← pyIterElems issues
  let critical ← sevFilter "critical" issueList
  let warnings ← sevFilter "warning" issueList
  return .dict [("audit", audit), ("recommendations", .list []),
    ("priority_fixes", .list (critical.take 5)),
    ("summary", .dict [("critical_issues", .int critical.length),
      ("warnings", .int warnings.length),
      ("overall_health", .str (if critical.length = 0 then "good" else "needs_attention"))])]

structure KeywordOracles where
  discover_keywords : String → PyVal → Except String PyVal
  find_long_tail : String → Int → Except String PyVal
  find_questions : String → Int → Except String PyVal
  analyze_serp : String → Except String PyVal
  cluster_keywords : PyVal → Except String PyVal

/-- `[k.get("keyword") for k in ...]`. -/
def kwExtract : List PyVal → Except String (List PyVal)
  | [] => .ok []
  | k :: rest => do
      let v ← pyGetN k "keyword"
      let tail ← kwExtract rest
      return v :: tail

/-- `KeywordResearchAgent.run`. -/
def keywordResearchRun (o : KeywordOracles) (seed : String) (options : PyVal) :
    Except String PyVal := do
  let opts := pyOrDict options
  let limit ← pyGet opts "limit" (.int 50)
  let discovered ← o.discover_keywords seed limit
  let longTail ← o.find_long_tail seed 20
  let questions ← o.find_questions seed 15
  let serp ← o.analyze_serp seed
  let kws ← pyGet discovered "keywords" (.list [])
  let kws20 ← pySliceTo kws 20
  let kl ← pyIterElems kws20
  let names ← kwExtract kl
  let clusters ← o.cluster_keywords (.list names)
  let n1 ← pyLen (← pyGet discovered "keywords" (.list []))
  let n2 ← pyLen (← pyGet longTail "long_tail" (.list []))
  return .dict [("seed_keyword", .str seed), ("discovered_keywords", discovered),
    ("long_tail", longTail), ("questions", questions), ("serp_analysis", serp),
    ("clusters", clusters), ("total_opportunities", .int (n1 + n2))]

structure CompOracles where
  analyze_competitor : String → Except String PyVal
  compare_domains : String → List String → Except String PyVal
  find_content_gaps : String → List String → Except String PyVal
  estimate_traffic : String → Except String PyVal

/-- `for comp in competitors[:5]: competitor_analyses[comp] = await ...` —
sequential dict build, later duplicates overwrite. -/
def analyzeEach (f : String → Except String PyVal) :
    List String → List (String × PyVal) → Except String (List (String × PyVal))
  | [], acc => .ok acc
  | c :: rest, acc => do
      let r ← f c
      analyzeEach f rest (assocSet acc c r)

/-- `CompetitiveAnalysisAgent.run`.  The per-competitor analyses are capped at
the first 5 (`competitors[:5]`), while `compare_domains` and
`find_content_gaps` receive the full competitor list. -/
def competitiveRun (o : CompOracles) (yourDomain : String) (competitors : List String)
    (_options : PyVal) : Except String PyVal := do
  let yourAnalysis ← o.analyze_competitor yourDomain
  let analyses ← analyzeEach o.analyze_competitor (competitors.take 5) []
  let comparison ← o.compare_domains yourDomain competitors
  let gaps ← o.find_content_gaps yourDomain competitors
  let traffic ← o.estimate_traffic yourDomain
  let actions ← pyGet comparison "action_items" (.list [])
  return .dict [("your_domain", .str yourDomain), ("your_analysis", yourAnalysis),
    ("competitor_analyses", .dict analyses), ("comparison", comparison),
    ("content_gaps", gaps), ("traffic_estimate", traffic),
    ("strategic_recommendations", actions)]

structure StrategyOracles where
  audit : AuditOracles
  kw : KeywordOracles
  comp : CompOracles
  content : ContentOracles

/-- A slot of the `asyncio.gather(..., return_exceptions=True)` fan-out: a
raised exception is replaced by the `{"error": str(e)}` marker. -/
def errSlot (r : Except String PyVal) : PyVal :=
  match r with
  | .ok v => v
  | .error e => .dict [("error", .str e)]

/-- `FullSEOStrategyAgent._generate_priority_actions`. -/
def generatePriorityActions (results : PyVal) : Except String PyVal := do
  let audit ← pyGet results "seo_audit" emptyDict
  let summary ← pyGet audit "summary" emptyDict
  let ci ← pyGet summary "critical_issues" (.int 0)
  let b1 ← pyGtInt ci 0
  let kwr ← pyGet results "keyword_research" emptyDict
  let topp ← pyGet kwr "total_opportunities" (.int 0)
  let b2 ← pyGtInt topp 20
  let comp ← pyGet results "competitive_analysis" emptyDict
  let cg ← pyGet comp "content_gaps" emptyDict
  let gaps ← pyGetN cg "gaps"
  let actions : List PyVal :=
    (if b1 then [PyVal.str "URGENT: Fix critical SEO issues found in audit"] else []) ++
    (if b2 then [PyVal.str "HIGH: You have 20+ keyword opportunities to target"] else []) ++
    (if truthy gaps then [PyVal.str "MEDIUM: Address content gaps vs competitors"] else [])
  return (if actions.isEmpty then
      .list [.str "Continue monitoring and creating quality content"]
    else .list actions)

/-- `FullSEOStrategyAgent.run`.  The fan-out is failure-isolated via
`errSlot`; the content-strategy step is awaited directly, so its exception
propagates.  The sub-agents share no state (all collaborators are pure
oracles), so the cooperative `asyncio.gather` interleaving is equivalent to
evaluating each sub-run independently.  A `None` competitor list and an empty
one are both falsy in `if competitors:` and are modelled as `[]`.  The two
`datetime.utcnow()` timestamps are the opaque parameters `startedAt` and
`completedAt`. -/
def fullStrategyRun (so : StrategyOracles) (domain : String)
    (targetKeywords competitors : List String) (startedAt completedAt : String) :
    Except String PyVal :=
  let auditRes := seoAuditRun so.audit domain
  let kwSeed := match targetKeywords with
    | k :: _ => k
    | [] => domain
  let kwRes := keywordResearchRun so.kw kwSeed PyVal.none
  let base :=
    [("domain", PyVal.str domain), ("started_at", PyVal.str startedAt),
     ("seo_audit", errSlot auditRes), ("keyword_research", errSlot kwRes)] ++
    (if competitors.isEmpty then []
     else [("competitive_analysis",
       errSlot (competitiveRun so.comp domain competitors PyVal.none))])
  match targetKeywords with
  | [] => do
      let results := base ++ [("completed_at", PyVal.str completedAt)]
      let recs ← generatePriorityActions (.dict results)
      return .dict (results ++ [("recommendations", recs)])
  | k0 :: _ => do
      let contentRes ← (contentCreationRun so.content ("Guide to " ++ k0) k0
        (.dict [("generate_content", .bool false)])).1
      let results := base ++
        [("content_strategy", contentRes), ("completed_at", PyVal.str completedAt)]
      let recs ← generatePriorityActions (.dict results)
      return .dict (results ++ [("recommendations", recs)])

/-! ## `AgentOrchestrator`: the Task state machine -/

inductive TaskStatus where
  | pending
  | running
  | completed
  | failed
  deriving DecidableEq

/-- One Task record (named `OrcTask`, since `Task` exists in core Lean) of the in-memory store.  The `logs` list and the
timestamp fields carry wall-clock strings and are not modelled; no claim
concerns them.  A missing dict key (`error`, `critic_score`,
`critic_feedback` before their first assignment) is `Option.none`. -/
structure OrcTask where
  status : TaskStatus
  results : Option PyVal
  error : Option String
  criticScore : Option PyVal
  criticFeedback : Option PyVal

/-- The record written by `start_task` (status Pending, `results` explicitly
`None` — modelled as not-yet-set since no claim separates a `None` value from
a missing key — and no `error` key). -/
def initTask : OrcTask :=
  ⟨.pending, Option.none, Option.none, Option.none, Option.none⟩

/-- The post-completion bookkeeping of `_run_task` (the AEO 2.0 critic-score
extraction): `if isinstance(result, dict) and "critic_history" in
result.get("content", {}): ...`.  Returns the `(score, feedback)` pair of the
last history round when the branch applies, `Option.none` when it does not,
and `.error` when the Python code raises (for example `TypeError` from
`"critic_history" in None` when the result has `"content": None`). -/
def bookkeeping (result : PyVal) : Except String (Option (PyVal × PyVal)) :=
  match result with
  | .dict rs => do
      let c := (assocFind rs "content").getD emptyDict
      let b ← pyContains c "critic_history"
      if b then
        let content ← pyItem result "content"
        let history ← pyItem content "critic_history"
        if truthy history then
          let lastRound ← pyLast history
          let sc ← pyGetN lastRound "score"
          let fb ← pyGetN lastRound "feedback"
          return some (sc, fb)
        else return Option.none
      else return Option.none
  | _ => .ok Option.none

/-- The snapshots of a Task record over `_run_task`, one entry per mutation
of a modelled field, starting from the `start_task` record.  `exec` is the
awaited agent run (`.error e` models the agent raising, caught by the
`except` clause which sets status Failed and records `str(e)`; the same
clause also catches an exception raised by the post-completion bookkeeping,
after `results` and status Completed were already stored). -/
def taskTrace (exec : Except String PyVal) : List OrcTask :=
  let t0 := initTask
  let t1 := { t0 with status := .running }
  match exec with
  | .error e =>
      let t2 := { t1 with status := .failed }
      let t3 := { t2 with error := some e }
      [t0, t1, t2, t3]
  | .ok result =>
      let t2 := { t1 with results := some result }
      let t3 := { t2 with status := .completed }
      match bookkeeping result with
      | .error e =>
          let t4 := { t3 with status := .failed }
          let t5 := { t4 with error := some e }
          [t0, t1, t2, t3, t4, t5]
      | .ok Option.none => [t0, t1, t2, t3]
      | .ok (some (sc, fb)) =>
          let t4 := { t3 with criticScore := some sc }
          let t5 := { t4 with criticFeedback := some fb }
          [t0, t1, t2, t3, t4, t5]

/-- The Task record once `_run_task` has finished. -/
def runTaskFinal (exec : Except String PyVal) : OrcTask :=
  (taskTrace exec).getLastD initTask

/-! ## Concrete collaborator behaviours used by witnesses and
counterexamples -/

/-- A Critic that always returns score 50 with `passed = false`
(Scenario B of the spec). -/
def critFail50 : PyVal → PyVal → Int → Except String PyVal :=
  fun _ _ _ => .ok (.dict [("score", .int 50), ("passed", .bool false),
    ("feedback", .str "needs work")])

/-- A Reviser that always returns a fixed rewritten text. -/
def revFixed : PyVal → String → Except String PyVal :=
  fun _ _ => .ok (.dict [("rewritten", .str "revised text")])

/-- Concrete well-behaved content-creation collaborators with the
always-failing Critic of Scenario B. -/
def contentOraclesB : ContentOracles where
  analyze_winning_pattern := fun _ => .ok (.dict [("pattern", .str "p")])
  generate_content_brief := fun _ _ =>
    .ok (.dict [("target_keyword", .str "k"), ("tone", .str "t")])
  create_outline := fun _ _ => .ok (.dict [("sections", .list [])])
  generate_titles := fun _ _ => .ok (.list [])
  create_content := fun _ _ _ => .ok (.dict [("content", .str "draft v1")])
  rewrite_content := revFixed
  generate_schema := fun _ _ => .ok (.dict [("schema", .str "s")])
  critique_content := critFail50

/-- A content-creation run submitted without content generation
(`options = {"generate_content": False}`): its result carries
`"content": None`. -/
def execNoGen : Except String PyVal :=
  (contentCreationRun contentOraclesB "t" "k"
    (.dict [("generate_content", .bool false)])).1

/-- Like `critFail50` but with different feedback wording (same score, same
verdict). -/
def critFail50B : PyVal → PyVal → Int → Except String PyVal :=
  fun _ _ _ => .ok (.dict [("score", .int 50), ("passed", .bool false),
    ("feedback", .str "different words")])

/-- Competitive-analysis collaborators whose comparison result records how
many competitor domains it was invoked with. -/
def compOraclesN : CompOracles where
  analyze_competitor := fun _ => .ok PyVal.none
  compare_domains := fun _ cs => .ok (.dict [("ncomp", .int cs.length)])
  find_content_gaps := fun _ _ => .ok PyVal.none
  estimate_traffic := fun _ => .ok PyVal.none

/-- Minimal well-behaved audit collaborator. -/
def auditOraclesX : AuditOracles where
  full_audit := fun _ => .ok (.dict [("issues", .list [])])

/-- Minimal well-behaved keyword-research collaborators. -/
def kwOraclesX : KeywordOracles where
  discover_keywords := fun _ _ => .ok (.dict [("keywords", .list [])])
  find_long_tail := fun _ _ => .ok (.dict [("long_tail", .list [])])
  find_questions := fun _ _ => .ok (.list [])
  analyze_serp := fun _ => .ok (.dict [])
  cluster_keywords := fun _ => .ok (.dict [])

/-- Competitive-analysis collaborators that always raise (Scenario C). -/
def compOraclesFail : CompOracles where
  analyze_competitor := fun _ => .error "comp down"
  compare_domains := fun _ _ => .error "comp down"
  find_content_gaps := fun _ _ => .error "comp down"
  estimate_traffic := fun _ => .error "comp down"

/-- Full-strategy collaborators for Scenario C: the competitor-analysis
sub-agent always raises, everything else succeeds. -/
def strategyOraclesX : StrategyOracles where
  audit := auditOraclesX
  kw := kwOraclesX
  comp := compOraclesFail
  content := contentOraclesB

/-- Content-creation collaborators whose brief generator always raises. -/
def contentOraclesBoom : ContentOracles where
  analyze_winning_pattern := fun _ => .ok (.dict [("pattern", .str "p")])
  generate_content_brief := fun _ _ => .error "boom"
  create_outline := fun _ _ => .ok (.dict [("sections", .list [])])
  generate_titles := fun _ _ => .ok (.list [])
  create_content := fun _ _ _ => .ok (.dict [("content", .str "draft v1")])
  rewrite_content := revFixed
  generate_schema := fun _ _ => .ok (.dict [("schema", .str "s")])
  critique_content := critFail50

/-- Full-strategy collaborators where only the content-strategy step's brief
collaborator raises. -/
def strategyOraclesY : StrategyOracles where
  audit := auditOraclesX
  kw := kwOraclesX
  comp := compOraclesN
  content := contentOraclesBoom

/-- The pass/fail projection of one Critic call as the loop observes it:
either the propagated exception (from the call itself, or from `.get` on a
critique that is not a dict — the message depends only on the value, not on
the key), or the truthiness of `critique.get("passed", False)`. -/
def passedProj (r : Except String PyVal) : Except String Bool :=
  match r with
  | .error e => .error e
  | .ok v => (pyGet v "passed" (.bool false)).map truthy

def statusRank : TaskStatus → Nat
  | .pending => 0
  | .running => 1
  | .completed => 2
  | .failed => 2

def terminalStatus : TaskStatus → Bool
  | .completed => true
  | .failed => true
  | _ => false

/-- The association list produced by the per-competitor analysis loop when
every analysis succeeds with value `af c`. -/
def buildAnalyses (af : String → PyVal) :
    List String → List (String × PyVal) → List (String × PyVal)
  | [], acc => acc
  | c :: rest, acc => buildAnalyses af rest (assocSet acc c (af c))

/-- A task snapshot does not hold `results` and `error` simultaneously. -/
def noBothSet (s : OrcTask) : Bool :=
  !(s.results.isSome && s.error.isSome)

/-- One trace step writes `results` and `error` at most once: a field that is
set is never changed afterwards. -/
def writeOnceStep (s s2 : OrcTask) : Prop :=
  (s.results.isSome → s2.results = s.results) ∧ (s.error.isSome → s2.error = s.error)

/-- One trace step never decreases the lifecycle rank
(Pending → Running → terminal). -/
def rankStep (s s2 : OrcTask) : Prop :=
  statusRank s.status ≤ statusRank s2.status

/-- One trace step out of a terminal status keeps it (absorbing terminal
states). -/
def absorbStep (s s2 : OrcTask) : Prop :=
  terminalStatus s.status = true → s2.status = s.status

/-- The per-round `feedback` entries of a revision loop's critique history. -/
def loopFeedbacks (r : LoopOut) : List (Except String PyVal) :=
  match r.out with
  | .error _ => []
  | .ok dl => dl.2.map (fun e => pyGetN e "feedback")

/-- The `k` slot of a successful agent result (`result.get(k, {})` after the
run, propagating a run failure). -/
def slotOf (r : Except String PyVal) (k : String) : Except String PyVal :=
  match r with
  | .error e => .error e
  | .ok v => pyGet v k emptyDict

/-! ## Helper lemmas -/

theorem assocFind_assocSet_self (l : List (String × PyVal)) (k : String) (v : PyVal) :
    assocFind (assocSet l k v) k = some v := by
  induction l with
  | nil => simp [assocSet, assocFind]
  | cons hd tl ih =>
      obtain ⟨k0, v0⟩ := hd
      by_cases h : k0 = k
      · simp [assocSet, assocFind, h]
      · simp [assocSet, assocFind, h, ih]

theorem pyGet_ok_dict (v : PyVal) (k : String) (d x : PyVal) (h : pyGet v k d = .ok x) :
    ∃ l, v = .dict l := by
  cases v <;> first | exact ⟨_, rfl⟩ | simp [pyGet] at h

theorem pyGet_error_any_key (v : PyVal) (k : String) (d : PyVal) (m : String)
    (h : pyGet v k d = .error m) (k2 : String) (d2 : PyVal) :
    pyGet v k2 d2 = .error m := by
  cases v <;> simp [pyGet] at h ⊢ <;> exact h

theorem revisionLoop_head_error (c : PyVal → PyVal → Int → Except String PyVal)
    (reviser : PyVal → String → Except String PyVal) (brief : PyVal) (fuel : Nat)
    (i : Int) (draft : PyVal) (logs : List PyVal) (m : String)
    (h : passedProj (c draft brief i) = .error m) :
    revisionLoop c reviser brief (fuel + 1) i draft logs = ⟨.error m, 1, 0⟩ := by
  cases hc : c draft brief i with
  | error e =>
      rw [hc] at h
      simp only [passedProj, Except.error.injEq] at h
      subst h
      simp [revisionLoop, hc]
  | ok v =>
      rw [hc] at h
      simp only [passedProj] at h
      cases hg : pyGet v "passed" (.bool false) with
      | ok p => rw [hg] at h; simp [Except.map] at h
      | error m2 =>
          rw [hg] at h
          simp only [Except.map, Except.error.injEq] at h
          subst h
          have hs := pyGet_error_any_key v "passed" (.bool false) m2 hg "score" PyVal.none
          simp [revisionLoop, hc, pyGetN, hs]

theorem revisionLoop_calls_le (c : PyVal → PyVal → Int → Except String PyVal)
    (reviser : PyVal → String → Except String PyVal) (brief : PyVal) (fuel : Nat) :
    ∀ (i : Int) (draft : PyVal) (logs : List PyVal),
      (revisionLoop c reviser brief fuel i draft logs).criticCalls ≤ fuel ∧
      (revisionLoop c reviser brief fuel i draft logs).reviserCalls ≤ fuel := by
  induction fuel with
  | zero => intro i d l; simp [revisionLoop]
  | succ n ih =>
      intro i d l
      simp only [revisionLoop]
      split
      · simp
      · split
        · simp
        · split
          · simp
          · split
            · simp
            · split
              · simp
              · split
                · simp
                · split
                  · simp
                  · refine ⟨?_, ?_⟩
                    · simpa using (ih _ _ _).1
                    · simpa using (ih _ _ _).2

theorem stepZ_counts {α : Type} (r : Except String α)
    (k : α → Except String PyVal × Nat × Nat) (a b : Nat)
    (h : ∀ x, (k x).2.1 ≤ a ∧ (k x).2.2 ≤ b) :
    (stepZ r k).2.1 ≤ a ∧ (stepZ r k).2.2 ≤ b := by
  cases r with
  | error e => simp [stepZ]
  | ok x => simpa [stepZ] using h x

theorem stepC_counts {α : Type} (cc rc : Nat) (r : Except String α)
    (k : α → Except String PyVal × Nat × Nat) (a b : Nat)
    (hcc : cc ≤ a) (hrc : rc ≤ b) (h : ∀ x, (k x).2.1 ≤ a ∧ (k x).2.2 ≤ b) :
    (stepC cc rc r k).2.1 ≤ a ∧ (stepC cc rc r k).2.2 ≤ b := by
  cases r with
  | error e => simpa [stepC] using ⟨hcc, hrc⟩
  | ok x => simpa [stepC] using h x

theorem content_creation_calls_le_three (o : ContentOracles) (topic keyword : String)
    (options : PyVal) :
    (contentCreationRun o topic keyword options).2.1 ≤ 3 ∧
    (contentCreationRun o topic keyword options).2.2 ≤ 3 := by
  unfold contentCreationRun
  apply stepZ_counts; intro aeo
  apply stepZ_counts; intro brief0
  apply stepZ_counts; intro brief
  apply stepZ_counts; intro outline
  apply stepZ_counts; intro titles
  apply stepZ_counts; intro wc
  apply stepZ_counts; intro gc
  split
  · apply stepZ_counts; intro draft0
    apply stepZ_counts; intro d0
    have hb := revisionLoop_calls_le o.critique_content o.rewrite_content brief 3 1 d0 []
    apply stepC_counts _ _ _ _ _ _ hb.1 hb.2; intro dl
    apply stepC_counts _ _ _ _ _ _ hb.1 hb.2; intro draft1
    apply stepC_counts _ _ _ _ _ _ hb.1 hb.2; intro draft2
    apply stepC_counts _ _ _ _ _ _ hb.1 hb.2; intro headline
    apply stepC_counts _ _ _ _ _ _ hb.1 hb.2; intro schema
    exact hb
  · apply stepZ_counts; intro headline
    apply stepZ_counts; intro schema
    simp

/-! ## Claims -/

/-- C5: for every content-creation run (the source hardcodes
`max_iterations = 3`) and arbitrary Critic/Reviser behaviour — including
collaborators that raise — the revision loop terminates (the embedded run is
a total function) and the run invokes the Critic at most
`max_iterations + 1 = 4` times and the Reviser at most `max_iterations = 3`
times. -/
theorem C5_revision_loop_bounded (o : ContentOracles) (topic keyword : String)
    (options : PyVal) :
    (contentCreationRun o topic keyword options).2.1 ≤ 3 + 1 ∧
    (contentCreationRun o topic keyword options).2.2 ≤ 3 := by
  have h := content_creation_calls_le_three o topic keyword options
  exact ⟨h.1.trans (by omega), h.2⟩

/-- C6: for every iteration number `i > 3` (the configured maximum), the
Critic returns `passed = true` with score exactly 70 and the warning feedback
string, without consulting the external evaluation collaborator (zero client
invocations, and the result is the same for every client behaviour), for
every draft and brief. -/
theorem C6_forced_pass (client : Option (Except String String)) (draft : String)
    (brief : PyVal) (i : Int) (h : i > 3) :
    critique_content client draft brief i =
      (.ok (PyVal.dict [("score", .int 70), ("passed", .bool true),
        ("feedback", .str "Max iterations reached. Manual review recommended."),
        ("status", .str "completed_with_warnings")]), 0) := by
  have h3 : i > criticMaxIterations := h
  unfold critique_content
  rw [if_pos h3]
  rfl

/-- C6 witness: iteration 4 with an available client and a nonempty draft
still yields the forced pass with zero collaborator consultations. -/
theorem C6_forced_pass_witness :
    ((4 : Int) > 3) ∧ critique_content (some (.ok "ignored")) "any draft" PyVal.none 4 =
      (.ok (PyVal.dict [("score", .int 70), ("passed", .bool true),
        ("feedback", .str "Max iterations reached. Manual review recommended."),
        ("status", .str "completed_with_warnings")]), 0) :=
  ⟨by decide, C6_forced_pass (some (.ok "ignored")) "any draft" PyVal.none 4 (by decide)⟩

/-- C7 (amended): within the iteration budget, if the evaluation collaborator
is unavailable (no client), or raises, or its response contains no parsable
JSON (`extract_json` raises), the Critic returns the fixed fallback critique
(`passed = false`, generic feedback) and propagates no exception; a
response that parses as JSON but lacks the expected critique structure is
returned as-is, not replaced by the fallback. -/
theorem C7_critic_fallback (client : Option (Except String String)) (draft : String)
    (bs : List (String × PyVal)) (i : Int) (hi : i ≤ 3)
    (hc : client = Option.none ∨ (∃ e, client = some (.error e)) ∨
      (∃ resp, client = some (.ok resp) ∧ extract_json resp = .error ())) :
    ∃ n, critique_content client draft (.dict bs) i = (.ok mockCritique, n) := by
  have h3 : ¬ (i > criticMaxIterations) := by
    simp only [criticMaxIterations]
    omega
  rcases hc with rfl | ⟨e, rfl⟩ | ⟨resp, rfl, hx⟩
  · refine ⟨0, ?_⟩
    unfold critique_content
    rw [if_neg h3]
    rfl
  · refine ⟨1, ?_⟩
    unfold critique_content
    rw [if_neg h3]
    rfl
  · refine ⟨1, ?_⟩
    unfold critique_content
    rw [if_neg h3]
    simp [pyGetN, pyGet, hx]

/-- C7 witness: iteration 1 with no client configured returns the mock
fallback critique. -/
theorem C7_critic_fallback_witness :
    ((1 : Int) ≤ 3) ∧
    ∃ n, critique_content Option.none "draft" (.dict []) 1 = (.ok mockCritique, n) :=
  ⟨by decide, C7_critic_fallback Option.none "draft" [] 1 (by decide) (Or.inl rfl)⟩

/-- C1 counterexample: a content-creation task submitted with
`options = {"generate_content": False}` completes with a result whose
`content` slot is `None`; the post-completion bookkeeping then raises
(`"critic_history" in None` is a `TypeError`), the `except` clause records an
error — and the task ends with `results` and `error` simultaneously
non-null. -/
theorem C1_both_fields_set_cx :
    (runTaskFinal execNoGen).results.isSome = true ∧
    (runTaskFinal execNoGen).error.isSome = true :=
  ⟨rfl, rfl⟩

/-- C1 (amended): along every task trace, `results` and `error` are each
written at most once (never rewritten after being set); and provided the
post-completion bookkeeping does not raise on a successfully stored result,
the two fields are never simultaneously non-null at any point of the
lifecycle. -/
theorem C1_results_error_exclusive (exec : Except String PyVal) :
    List.Chain' writeOnceStep (taskTrace exec) ∧
    ((∀ r, exec = Except.ok r → ∃ v, bookkeeping r = .ok v) →
      ((taskTrace exec).all noBothSet) = true) := by
  constructor
  · cases exec with
    | error e => simp [taskTrace, initTask, writeOnceStep]
    | ok r =>
        cases hb : bookkeeping r with
        | error e => simp [taskTrace, initTask, hb, writeOnceStep]
        | ok v =>
            cases v with
            | none => simp [taskTrace, initTask, hb, writeOnceStep]
            | some p =>
                obtain ⟨sc, fb⟩ := p
                simp [taskTrace, initTask, hb, writeOnceStep]
  · intro hby
    cases exec with
    | error e => simp [taskTrace, initTask, noBothSet]
    | ok r =>
        obtain ⟨v, hbv⟩ := hby r rfl
        cases v with
        | none => simp [taskTrace, initTask, hbv, noBothSet]
        | some p =>
            obtain ⟨sc, fb⟩ := p
            simp [taskTrace, initTask, hbv, noBothSet]

/-- C1 witness: a task whose run succeeds with an empty-dict result (the
bookkeeping does not raise) never holds `results` and `error` together at
any point of its trace. -/
theorem C1_results_error_exclusive_witness :
    ((taskTrace (Except.ok emptyDict)).all noBothSet) = true :=
  (C1_results_error_exclusive (Except.ok emptyDict)).2
    (fun r hr => ⟨Option.none, by injection hr with h2; rw [← h2]; rfl⟩)

/-- C2 counterexample: the same failing input as for C1 — the trace of a
content-creation task with `generate_content = False` reaches status
Completed and then transitions to Failed when the post-completion
bookkeeping raises, so a terminal status is not absorbing. -/
theorem C2_completed_then_failed_cx :
    ((taskTrace execNoGen).map OrcTask.status) =
      [TaskStatus.pending, .running, .running, .completed, .failed, .failed] ∧
    ((taskTrace execNoGen).getD 3 initTask).status = TaskStatus.completed ∧
    ((taskTrace execNoGen).getD 4 initTask).status = TaskStatus.failed :=
  ⟨rfl, rfl, rfl⟩

/-- C2 (amended): the status rank (Pending → Running → terminal) never
decreases along a task trace; and provided the post-completion bookkeeping
does not raise on a successfully stored result, a terminal status (Completed
or Failed) is absorbing — no later step of the run changes it (a task whose
bookkeeping raises instead transitions Completed → Failed). -/
theorem C2_status_monotone (exec : Except String PyVal) :
    List.Chain' rankStep (taskTrace exec) ∧
    ((∀ r, exec = Except.ok r → ∃ v, bookkeeping r = .ok v) →
      List.Chain' absorbStep (taskTrace exec)) := by
  constructor
  · cases exec with
    | error e => simp [taskTrace, initTask, rankStep, statusRank]
    | ok r =>
        cases hb : bookkeeping r with
        | error e => simp [taskTrace, initTask, hb, rankStep, statusRank]
        | ok v =>
            cases v with
            | none => simp [taskTrace, initTask, hb, rankStep, statusRank]
            | some p =>
                obtain ⟨sc, fb⟩ := p
                simp [taskTrace, initTask, hb, rankStep, statusRank]
  · intro hby
    cases exec with
    | error e => simp [taskTrace, initTask, absorbStep, terminalStatus]
    | ok r =>
        obtain ⟨v, hbv⟩ := hby r rfl
        cases v with
        | none => simp [taskTrace, initTask, hbv, absorbStep, terminalStatus]
        | some p =>
            obtain ⟨sc, fb⟩ := p
            simp [taskTrace, initTask, hbv, absorbStep, terminalStatus]

/-- C2 witness: a task whose run succeeds with a list result (not a dict, so
the bookkeeping branch does not apply and does not raise) has absorbing
terminal states along its whole trace. -/
theorem C2_status_monotone_witness :
    List.Chain' absorbStep (taskTrace (Except.ok (PyVal.list []))) :=
  (C2_status_monotone (Except.ok (PyVal.list []))).2
    (fun r hr => ⟨Option.none, by injection hr with h2; rw [← h2]; rfl⟩)

/-- C7 counterexample: a collaborator response that is valid JSON (`"42"`)
but not the expected critique structure is returned as-is by the Critic,
not replaced by the `passed = false` fallback — refuting the claim that any
response that cannot be parsed into the expected structure yields the
fallback. -/
theorem C7_no_structure_validation :
    critique_content (some (.ok "42")) "draft" (.dict []) 1 = (.ok (PyVal.int 42), 1) ∧
    PyVal.int 42 ≠ mockCritique :=
  ⟨rfl, by simp [mockCritique]⟩

/-- C3 counterexample: with a Critic that always returns score 50 and
`passed = false` (Scenario B) and a normal Reviser, the embedded
content-creation run performs exactly 3 critique rounds and 3 revisions —
the Critic is never invoked a 4th time, so no forced pass occurs — and the
task completes with `critic_score` 50, not 70 as claimed. -/
theorem C3_scenario_b_cx :
    (contentCreationRun contentOraclesB "t" "k" PyVal.none).2.1 = 3 ∧
    (contentCreationRun contentOraclesB "t" "k" PyVal.none).2.2 = 3 ∧
    (runTaskFinal (contentCreationRun contentOraclesB "t" "k" PyVal.none).1).status =
      TaskStatus.completed ∧
    (runTaskFinal (contentCreationRun contentOraclesB "t" "k" PyVal.none).1).criticScore =
      some (PyVal.int 50) ∧
    PyVal.int 50 ≠ PyVal.int 70 :=
  ⟨rfl, rfl, rfl, rfl, by simp⟩

/-- C3 (amended): for a content-creation task whose Critic returns score 50
with `passed = false` on every invocation (its other collaborators
succeeding, the Reviser returning nonempty rewritten text), the revision
loop performs exactly 3 critique rounds and 3 revisions (iterations 1 to 3)
and exits by exhausting the while guard without any forced-pass invocation;
the task ends with status Completed and its `critic_score` field equal to 50
(the score of the final round in the critique history). -/
theorem C3_scenario_b_amended (o : ContentOracles) (topic keyword : String)
    (av ov tv hv sv : PyVal) (bs dv : List (String × PyVal))
    (fbf : PyVal → PyVal → Int → PyVal) (rws : PyVal → String)
    (ha : o.analyze_winning_pattern keyword = .ok av)
    (hb : o.generate_content_brief topic keyword = .ok (.dict bs))
    (ho : o.create_outline topic keyword = .ok ov)
    (ht : o.generate_titles keyword 3 = .ok tv)
    (hh : schemaHeadline tv topic = .ok hv)
    (hs : o.generate_schema "Article"
      (.dict [("headline", hv), ("description", .str "Meta description")]) = .ok sv)
    (hcc : o.create_content topic keyword (.int 1500) = .ok (.dict dv))
    (hcr : ∀ d b i, o.critique_content d b i = .ok (.dict [("score", .int 50),
      ("passed", .bool false), ("feedback", fbf d b i)]))
    (hrw : ∀ d, o.rewrite_content d "improve" = .ok (.dict [("rewritten", .str (rws d))]))
    (hne : ∀ d, rws d ≠ "") :
    (contentCreationRun o topic keyword PyVal.none).2.1 = 3 ∧
    (contentCreationRun o topic keyword PyVal.none).2.2 = 3 ∧
    (runTaskFinal (contentCreationRun o topic keyword PyVal.none).1).status =
      TaskStatus.completed ∧
    (runTaskFinal (contentCreationRun o topic keyword PyVal.none).1).criticScore =
      some (PyVal.int 50) := by
  have l1 : ∀ (fuel : Nat) (i : Int) (d : PyVal) (logs : List PyVal) (B : PyVal),
      revisionLoop o.critique_content o.rewrite_content B (fuel + 1) i d logs =
        ⟨(revisionLoop o.critique_content o.rewrite_content B fuel (i + 1) (.str (rws d))
            (logs ++ [.dict [("iteration", .int i), ("score", .int 50),
              ("feedback", fbf d B i)]])).out,
         (revisionLoop o.critique_content o.rewrite_content B fuel (i + 1) (.str (rws d))
            (logs ++ [.dict [("iteration", .int i), ("score", .int 50),
              ("feedback", fbf d B i)]])).criticCalls + 1,
         (revisionLoop o.critique_content o.rewrite_content B fuel (i + 1) (.str (rws d))
            (logs ++ [.dict [("iteration", .int i), ("score", .int 50),
              ("feedback", fbf d B i)]])).reviserCalls + 1⟩ := by
    intro fuel i d logs B
    simp [revisionLoop, hcr, hrw, pyGetN, pyGet, assocFind, truthy]
  have hloop : ∀ (B d0x : PyVal),
      revisionLoop o.critique_content o.rewrite_content B 3 1 d0x [] =
        ⟨.ok (.str (rws (.str (rws (.str (rws d0x))))),
          [.dict [("iteration", .int 1), ("score", .int 50), ("feedback", fbf d0x B 1)],
           .dict [("iteration", .int 2), ("score", .int 50),
             ("feedback", fbf (.str (rws d0x)) B 2)],
           .dict [("iteration", .int 3), ("score", .int 50),
             ("feedback", fbf (.str (rws (.str (rws d0x)))) B 3)]]), 3, 3⟩ := by
    intro B d0x
    rw [show (3 : Nat) = 2 + 1 from rfl, l1]
    rw [show (2 : Nat) = 1 + 1 from rfl, l1]
    rw [show (1 : Nat) = 0 + 1 from rfl, l1]
    simp [revisionLoop]
  refine ⟨?_, ?_, ?_, ?_⟩ <;>
    simp [contentCreationRun, stepZ, stepC, pyOrDict, truthy, emptyDict, pySet, pyGet,
      pyGetN, ha, hb, ho, ht, hh, hs, hcc, hloop, hne, runTaskFinal, taskTrace,
      bookkeeping, pyContains, assocHas, assocFind_assocSet_self, pyItem, pyLast,
      assocFind, bind, Except.bind, pure, Except.pure, List.getLast?]

/-- C3 witness: the amended Scenario B instantiated with concrete
collaborators (Critic always score 50 / failed, Reviser returning fixed
nonempty text). -/
theorem C3_scenario_b_amended_witness :
    (contentCreationRun contentOraclesB "t" "k" PyVal.none).2.1 = 3 ∧
    (contentCreationRun contentOraclesB "t" "k" PyVal.none).2.2 = 3 ∧
    (runTaskFinal (contentCreationRun contentOraclesB "t" "k" PyVal.none).1).status =
      TaskStatus.completed ∧
    (runTaskFinal (contentCreationRun contentOraclesB "t" "k" PyVal.none).1).criticScore =
      some (PyVal.int 50) :=
  C3_scenario_b_amended contentOraclesB "t" "k" _ _ _ _ _ _ _
    (fun _ _ _ => .str "needs work") (fun _ => "revised text")
    rfl rfl rfl rfl rfl rfl rfl (fun _ _ _ => rfl) (fun _ => rfl)
    (fun _ => (by decide : ("revised text" : String) ≠ ""))

/-- C4 (amended): in every non-passing round the Reviser is invoked with the
current draft and the fixed style string `improve` only — the critique
feedback is not passed (the feedback-bearing revision prompt is built but
unused), so the revised text and the whole draft evolution depend only on the
Critic's pass/fail verdicts, never on its feedback — and the current draft is
then replaced with `revision.get("rewritten", draft)`.  Part one: two Critics
with identical pass/fail projections but arbitrarily different feedback yield
identical draft outcomes and call counts.  Part two: the step equation of a
non-passing round. -/
theorem C4_reviser_ignores_feedback
    (c1 c2 : PyVal → PyVal → Int → Except String PyVal)
    (reviser : PyVal → String → Except String PyVal) (brief : PyVal)
    (h : ∀ d i, passedProj (c1 d brief i) = passedProj (c2 d brief i)) :
    (∀ (fuel : Nat) (i : Int) (draft : PyVal) (logs1 logs2 : List PyVal),
      (revisionLoop c1 reviser brief fuel i draft logs1).out.map Prod.fst =
        (revisionLoop c2 reviser brief fuel i draft logs2).out.map Prod.fst ∧
      (revisionLoop c1 reviser brief fuel i draft logs1).criticCalls =
        (revisionLoop c2 reviser brief fuel i draft logs2).criticCalls ∧
      (revisionLoop c1 reviser brief fuel i draft logs1).reviserCalls =
        (revisionLoop c2 reviser brief fuel i draft logs2).reviserCalls) ∧
    (∀ (fuel : Nat) (i : Int) (draft : PyVal) (logs : List PyVal) (sc fb pv rv : PyVal),
      c1 draft brief i = .ok (.dict [("score", sc), ("passed", pv), ("feedback", fb)]) →
      truthy pv = false →
      reviser draft "improve" = .ok rv →
      revisionLoop c1 reviser brief (fuel + 1) i draft logs =
        (match pyGet rv "rewritten" draft with
         | .error e => ⟨.error e, 1, 1⟩
         | .ok d2 =>
             ⟨(revisionLoop c1 reviser brief fuel (i + 1) d2 (logs ++
                 [.dict [("iteration", .int i), ("score", sc), ("feedback", fb)]])).out,
              (revisionLoop c1 reviser brief fuel (i + 1) d2 (logs ++
                 [.dict [("iteration", .int i), ("score", sc), ("feedback", fb)]])).criticCalls + 1,
              (revisionLoop c1 reviser brief fuel (i + 1) d2 (logs ++
                 [.dict [("iteration", .int i), ("score", sc), ("feedback", fb)]])).reviserCalls + 1⟩)) := by
  constructor
  · intro fuel
    induction fuel with
    | zero => intro i draft logs1 logs2; simp [revisionLoop, Except.map]
    | succ n ih =>
        intro i draft logs1 logs2
        cases hp : passedProj (c1 draft brief i) with
        | error m =>
            have hp2 : passedProj (c2 draft brief i) = .error m := by
              rw [← h draft i]; exact hp
            rw [revisionLoop_head_error c1 reviser brief n i draft logs1 m hp,
              revisionLoop_head_error c2 reviser brief n i draft logs2 m hp2]
            simp [Except.map]
        | ok b =>
            have hp2 : passedProj (c2 draft brief i) = .ok b := by
              rw [← h draft i]; exact hp
            cases hc1 : c1 draft brief i with
            | error e => rw [hc1] at hp; simp [passedProj] at hp
            | ok v1 =>
                cases hc2 : c2 draft brief i with
                | error e => rw [hc2] at hp2; simp [passedProj] at hp2
                | ok v2 =>
                    rw [hc1] at hp
                    rw [hc2] at hp2
                    simp only [passedProj] at hp hp2
                    cases hg1 : pyGet v1 "passed" (.bool false) with
                    | error m => rw [hg1] at hp; simp [Except.map] at hp
                    | ok p1 =>
                        cases hg2 : pyGet v2 "passed" (.bool false) with
                        | error m => rw [hg2] at hp2; simp [Except.map] at hp2
                        | ok p2 =>
                            rw [hg1] at hp
                            rw [hg2] at hp2
                            simp only [Except.map, Except.ok.injEq] at hp hp2
                            obtain ⟨l1, rfl⟩ := pyGet_ok_dict v1 "passed" (.bool false) p1 hg1
                            obtain ⟨l2, rfl⟩ := pyGet_ok_dict v2 "passed" (.bool false) p2 hg2
                            have hsc1 : pyGetN (PyVal.dict l1) "score" =
                                Except.ok ((assocFind l1 "score").getD PyVal.none) := rfl
                            have hfb1 : pyGetN (PyVal.dict l1) "feedback" =
                                Except.ok ((assocFind l1 "feedback").getD PyVal.none) := rfl
                            have hsc2 : pyGetN (PyVal.dict l2) "score" =
                                Except.ok ((assocFind l2 "score").getD PyVal.none) := rfl
                            have hfb2 : pyGetN (PyVal.dict l2) "feedback" =
                                Except.ok ((assocFind l2 "feedback").getD PyVal.none) := rfl
                            simp only [revisionLoop, hc1, hc2, hsc1, hfb1, hsc2, hfb2,
                              hg1, hg2, hp, hp2]
                            cases b with
                            | true => simp [Except.map]
                            | false =>
                                simp only [Bool.false_eq_true, if_false]
                                cases hr : reviser draft "improve" with
                                | error e => simp [hr, Except.map]
                                | ok rv =>
                                    cases hg : pyGet rv "rewritten" draft with
                                    | error e => simp [hr, hg, Except.map]
                                    | ok d2 =>
                                        obtain ⟨ih1, ih2, ih3⟩ :=
                                          ih (i + 1) d2
                                            (logs1 ++ [.dict [("iteration", .int i),
                                              ("score", (assocFind l1 "score").getD PyVal.none),
                                              ("feedback", (assocFind l1 "feedback").getD PyVal.none)]])
                                            (logs2 ++ [.dict [("iteration", .int i),
                                              ("score", (assocFind l2 "score").getD PyVal.none),
                                              ("feedback", (assocFind l2 "feedback").getD PyVal.none)]])
                                        simp [hr, hg, ih1, ih2, ih3]
  · intro fuel i draft logs sc fb pv rv hc hpv hr
    have h1 : pyGetN (PyVal.dict [("score", sc), ("passed", pv), ("feedback", fb)])
        "score" = Except.ok sc := rfl
    have h2 : pyGetN (PyVal.dict [("score", sc), ("passed", pv), ("feedback", fb)])
        "feedback" = Except.ok fb := rfl
    have h3 : pyGet (PyVal.dict [("score", sc), ("passed", pv), ("feedback", fb)])
        "passed" (.bool false) = Except.ok pv := rfl
    cases hg : pyGet rv "rewritten" draft with
    | error e => simp [revisionLoop, hc, h1, h2, h3, hpv, hr, hg]
    | ok d2 => simp [revisionLoop, hc, h1, h2, h3, hpv, hr, hg]

/-- C4 witness: the amended independence statement instantiated with the two
concrete Critics of the counterexample (score 50, failed, different feedback)
and the fixed Reviser: identical final drafts. -/
theorem C4_reviser_ignores_feedback_witness :
    (revisionLoop critFail50 revFixed (PyVal.dict []) 3 1 (.str "d0") []).out.map Prod.fst =
      (revisionLoop critFail50B revFixed (PyVal.dict []) 3 1 (.str "d0") []).out.map Prod.fst :=
  ((C4_reviser_ignores_feedback critFail50 critFail50B revFixed (PyVal.dict [])
    (fun _ _ => rfl)).1 3 1 (.str "d0") [] []).1

/-- C4 counterexample: two loop runs whose Critics differ only in feedback
wording produce identical draft outcomes (the Reviser output does not depend
on the feedback), while their critique histories record the different
feedback — refuting the claim that the revised text is a function of the
critique feedback passed to the Reviser. -/
theorem C4_feedback_not_passed_cx :
    (revisionLoop critFail50 revFixed (PyVal.dict []) 3 1 (.str "d0") []).out.map Prod.fst =
      (revisionLoop critFail50B revFixed (PyVal.dict []) 3 1 (.str "d0") []).out.map Prod.fst ∧
    loopFeedbacks (revisionLoop critFail50 revFixed (PyVal.dict []) 3 1 (.str "d0") []) =
      [.ok (.str "needs work"), .ok (.str "needs work"), .ok (.str "needs work")] ∧
    loopFeedbacks (revisionLoop critFail50B revFixed (PyVal.dict []) 3 1 (.str "d0") []) =
      [.ok (.str "different words"), .ok (.str "different words"),
       .ok (.str "different words")] ∧
    ("needs work" : String) ≠ "different words" :=
  ⟨rfl, rfl, rfl, by decide⟩

/-- The per-competitor analysis loop evaluates to the folded association list
when every analysis succeeds. -/
theorem analyzeEach_ok (f : String → Except String PyVal) (af : String → PyVal)
    (hf : ∀ c, f c = .ok (af c)) :
    ∀ (cs : List String) (acc : List (String × PyVal)),
      analyzeEach f cs acc = .ok (buildAnalyses af cs acc) := by
  intro cs
  induction cs with
  | nil => intro acc; simp [analyzeEach, buildAnalyses]
  | cons c rest ih =>
      intro acc
      simp [analyzeEach, buildAnalyses, hf, ih, bind, Except.bind]

/-- C9 (amended): at most the first 5 competitor domains receive
per-competitor analyses (excess competitors are silently ignored there), but
the pairwise domain comparison and the content-gap detection are invoked with
the full competitor list, excess included: the `comparison` and
`content_gaps` slots hold those collaborators' values for the full list. -/
theorem C9_competitor_cap (o : CompOracles) (d : String) (cs : List String)
    (opts gp tv : PyVal) (af : String → PyVal) (cmpl : List (String × PyVal))
    (hya : ∀ c, o.analyze_competitor c = .ok (af c))
    (hcmp : o.compare_domains d cs = .ok (.dict cmpl))
    (hgp : o.find_content_gaps d cs = .ok gp)
    (htv : o.estimate_traffic d = .ok tv) :
    competitiveRun o d cs opts = .ok (.dict
      [("your_domain", .str d), ("your_analysis", af d),
       ("competitor_analyses", .dict (buildAnalyses af (cs.take 5) [])),
       ("comparison", .dict cmpl), ("content_gaps", gp), ("traffic_estimate", tv),
       ("strategic_recommendations", (assocFind cmpl "action_items").getD (.list []))]) := by
  simp [competitiveRun, hya, hcmp, hgp, htv,
    analyzeEach_ok o.analyze_competitor af hya, bind, Except.bind, pyGet,
    pure, Except.pure]

/-- C9 witness: the amended statement at six competitors — the comparison
slot records all six domains while the analyses cover the first five. -/
theorem C9_competitor_cap_witness :
    competitiveRun compOraclesN "me" ["c1", "c2", "c3", "c4", "c5", "c6"] PyVal.none =
      .ok (.dict
        [("your_domain", .str "me"), ("your_analysis", PyVal.none),
         ("competitor_analyses",
          .dict (buildAnalyses (fun _ => PyVal.none)
            (["c1", "c2", "c3", "c4", "c5", "c6"].take 5) [])),
         ("comparison", .dict [("ncomp", .int 6)]), ("content_gaps", PyVal.none),
         ("traffic_estimate", PyVal.none),
         ("strategic_recommendations",
          (assocFind [("ncomp", .int 6)] "action_items").getD (.list []))]) :=
  C9_competitor_cap compOraclesN "me" ["c1", "c2", "c3", "c4", "c5", "c6"]
    PyVal.none PyVal.none PyVal.none (fun _ => PyVal.none) [("ncomp", .int 6)]
    (fun _ => rfl) rfl rfl rfl

/-- C9 counterexample: with six competitors the run result differs from the
run on the first five alone — the pairwise comparison receives the full
six-element list — so excess competitors are not ignored by every step of the
workflow. -/
theorem C9_excess_not_ignored_cx :
    slotOf (competitiveRun compOraclesN "me"
        ["c1", "c2", "c3", "c4", "c5", "c6"] PyVal.none) "comparison" =
      .ok (.dict [("ncomp", .int 6)]) ∧
    slotOf (competitiveRun compOraclesN "me"
        (["c1", "c2", "c3", "c4", "c5", "c6"].take 5) PyVal.none) "comparison" =
      .ok (.dict [("ncomp", .int 5)]) ∧
    competitiveRun compOraclesN "me" ["c1", "c2", "c3", "c4", "c5", "c6"] PyVal.none ≠
      competitiveRun compOraclesN "me" (["c1", "c2", "c3", "c4", "c5", "c6"].take 5)
        PyVal.none := by
  refine ⟨rfl, rfl, fun hEq => ?_⟩
  have h1 : slotOf (competitiveRun compOraclesN "me"
      ["c1", "c2", "c3", "c4", "c5", "c6"] PyVal.none) "comparison" =
      .ok (.dict [("ncomp", .int 6)]) := rfl
  rw [hEq] at h1
  have h2 : slotOf (competitiveRun compOraclesN "me"
      (["c1", "c2", "c3", "c4", "c5", "c6"].take 5) PyVal.none) "comparison" =
      .ok (.dict [("ncomp", .int 5)]) := rfl
  rw [h2] at h1
  simp at h1

/-- C10: in a Full Strategy run with a non-empty target_keywords list, the
content-strategy step (the nested content-creation run) executes outside the
failure-isolated fan-out: when it raises, the exception propagates to the
orchestrator boundary and the whole task transitions to Failed with the error
recorded and no results stored — even though the audit, keyword-research and
competitive-analysis sub-agents all succeeded. -/
theorem C10_content_strategy_not_isolated (so : StrategyOracles) (domain k0 : String)
    (tkrest competitors : List String) (t1 t2 : String) (e : String) (A K C : PyVal)
    (hA : seoAuditRun so.audit domain = .ok A)
    (hK : keywordResearchRun so.kw k0 PyVal.none = .ok K)
    (hC : competitors = [] ∨ competitiveRun so.comp domain competitors PyVal.none = .ok C)
    (hcontent : (contentCreationRun so.content ("Guide to " ++ k0) k0
      (.dict [("generate_content", .bool false)])).1 = .error e) :
    fullStrategyRun so domain (k0 :: tkrest) competitors t1 t2 = .error e ∧
    runTaskFinal (fullStrategyRun so domain (k0 :: tkrest) competitors t1 t2) =
      ⟨.failed, Option.none, some e, Option.none, Option.none⟩ := by
  have h1 : fullStrategyRun so domain (k0 :: tkrest) competitors t1 t2 = .error e := by
    simp [fullStrategyRun, hcontent, bind, Except.bind]
  exact ⟨h1, by rw [h1]; rfl⟩

/-- C10 witness: concrete collaborators where only the content-strategy
brief generator raises (`boom`) while all fanned-out sub-agents succeed: the
whole strategy task fails with that error. -/
theorem C10_content_strategy_not_isolated_witness :
    fullStrategyRun strategyOraclesY "d" ["k"] ["x"] "s" "f" = .error "boom" ∧
    runTaskFinal (fullStrategyRun strategyOraclesY "d" ["k"] ["x"] "s" "f") =
      ⟨.failed, Option.none, some "boom", Option.none, Option.none⟩ :=
  C10_content_strategy_not_isolated strategyOraclesY "d" "k" [] ["x"] "s" "f" "boom"
    _ _ _ rfl rfl (Or.inr rfl) rfl

/-- Splitting a successful `Except` bind into its two successful stages. -/
theorem exbind_ok {α β : Type} {x : Except String α} {f : α → Except String β} {b : β}
    (h : x >>= f = .ok b) : ∃ a, x = .ok a ∧ f a = .ok b := by
  cases x with
  | error e => simp [Bind.bind, Except.bind] at h
  | ok a => exact ⟨a, rfl, by simpa [Bind.bind, Except.bind] using h⟩

/-- A successful audit-agent run always has the literal result shape with an
integer `critical_issues` count. -/
theorem seoAuditRun_ok_shape (o : AuditOracles) (url : String) (A : PyVal)
    (h : seoAuditRun o url = .ok A) :
    ∃ (audit pf hl : PyVal) (nc nw : Nat),
      A = .dict [("audit", audit), ("recommendations", .list []), ("priority_fixes", pf),
        ("summary", .dict [("critical_issues", .int nc), ("warnings", .int nw),
          ("overall_health", hl)])] := by
  unfold seoAuditRun at h
  obtain ⟨audit, h1, h⟩ := exbind_ok h
  obtain ⟨issues, h2, h⟩ := exbind_ok h
  obtain ⟨il, h3, h⟩ := exbind_ok h
  obtain ⟨crit, h4, h⟩ := exbind_ok h
  obtain ⟨warn, h5, h⟩ := exbind_ok h
  simp only [pure, Except.pure, Except.ok.injEq] at h
  exact ⟨audit, .list (crit.take 5), .str (if crit.length = 0 then "good" else "needs_attention"),
    crit.length, warn.length, h.symm⟩

/-- A successful keyword-research run always has the literal result shape
with an integer `total_opportunities` count. -/
theorem keywordResearchRun_ok_shape (o : KeywordOracles) (seed : String) (options K : PyVal)
    (h : keywordResearchRun o seed options = .ok K) :
    ∃ (dv lt qv sv cv : PyVal) (n : Int),
      K = .dict [("seed_keyword", .str seed), ("discovered_keywords", dv),
        ("long_tail", lt), ("questions", qv), ("serp_analysis", sv),
        ("clusters", cv), ("total_opportunities", .int n)] := by
  unfold keywordResearchRun at h
  obtain ⟨limit, h1, h⟩ := exbind_ok h
  obtain ⟨dv, h2, h⟩ := exbind_ok h
  obtain ⟨lt, h3, h⟩ := exbind_ok h
  obtain ⟨qv, h4, h⟩ := exbind_ok h
  obtain ⟨sv, h5, h⟩ := exbind_ok h
  obtain ⟨kws, h6, h⟩ := exbind_ok h
  obtain ⟨kws20, h7, h⟩ := exbind_ok h
  obtain ⟨kl, h8, h⟩ := exbind_ok h
  obtain ⟨names, h9, h⟩ := exbind_ok h
  obtain ⟨cv, h10, h⟩ := exbind_ok h
  obtain ⟨kws2, h11, h⟩ := exbind_ok h
  obtain ⟨n1, h12, h⟩ := exbind_ok h
  obtain ⟨lt2, h13, h⟩ := exbind_ok h
  obtain ⟨n2, h14, h⟩ := exbind_ok h
  simp only [pure, Except.pure, Except.ok.injEq] at h
  exact ⟨dv, lt, qv, sv, cv, n1 + n2, h.symm⟩

/-- C8: in a Full Strategy run where the competitor-analysis sub-agent raises
while the audit and keyword-research sub-agents (and the content-strategy
step's collaborators) succeed, the task reaches final status Completed — not
Failed — with the `competitive_analysis` slot holding the error marker built
from the exception, and the `seo_audit` and `keyword_research` slots holding
their sub-agents' normal results unaffected. -/
theorem C8_full_strategy_partial_failure (so : StrategyOracles) (domain k0 : String)
    (tkrest competitors : List String) (t1 t2 : String) (e : String) (A K C : PyVal)
    (hne : competitors ≠ [])
    (hA : seoAuditRun so.audit domain = .ok A)
    (hK : keywordResearchRun so.kw k0 PyVal.none = .ok K)
    (hC : competitiveRun so.comp domain competitors PyVal.none = .error e)
    (hCS : (contentCreationRun so.content ("Guide to " ++ k0) k0
      (.dict [("generate_content", .bool false)])).1 = .ok C) :
    slotOf (fullStrategyRun so domain (k0 :: tkrest) competitors t1 t2)
        "competitive_analysis" = .ok (.dict [("error", .str e)]) ∧
    slotOf (fullStrategyRun so domain (k0 :: tkrest) competitors t1 t2) "seo_audit" =
      .ok A ∧
    slotOf (fullStrategyRun so domain (k0 :: tkrest) competitors t1 t2)
        "keyword_research" = .ok K ∧
    (runTaskFinal (fullStrategyRun so domain (k0 :: tkrest) competitors t1 t2)).status =
      TaskStatus.completed ∧
    (runTaskFinal (fullStrategyRun so domain (k0 :: tkrest) competitors t1 t2)).results.isSome
      = true ∧
    (runTaskFinal (fullStrategyRun so domain (k0 :: tkrest) competitors t1 t2)).error =
      Option.none := by
  obtain ⟨audit, pf, hl, nc, nw, rfl⟩ := seoAuditRun_ok_shape so.audit domain A hA
  obtain ⟨dv, lt, qv, sv, cv, n, rfl⟩ := keywordResearchRun_ok_shape so.kw k0 PyVal.none K hK
  have hcne : competitors.isEmpty = false := by
    cases competitors with
    | nil => exact absurd rfl hne
    | cons a b => rfl
  obtain ⟨recs, hrecs⟩ : ∃ recs, generatePriorityActions (.dict
      [("domain", .str domain), ("started_at", .str t1),
       ("seo_audit", .dict [("audit", audit), ("recommendations", .list []),
         ("priority_fixes", pf), ("summary", .dict [("critical_issues", .int nc),
           ("warnings", .int nw), ("overall_health", hl)])]),
       ("keyword_research", .dict [("seed_keyword", .str k0), ("discovered_keywords", dv),
         ("long_tail", lt), ("questions", qv), ("serp_analysis", sv), ("clusters", cv),
         ("total_opportunities", .int n)]),
       ("competitive_analysis", .dict [("error", .str e)]),
       ("content_strategy", C), ("completed_at", .str t2)]) = .ok recs := ⟨_, rfl⟩
  have hfull : fullStrategyRun so domain (k0 :: tkrest) competitors t1 t2 = .ok (.dict
      [("domain", .str domain), ("started_at", .str t1),
       ("seo_audit", .dict [("audit", audit), ("recommendations", .list []),
         ("priority_fixes", pf), ("summary", .dict [("critical_issues", .int nc),
           ("warnings", .int nw), ("overall_health", hl)])]),
       ("keyword_research", .dict [("seed_keyword", .str k0), ("discovered_keywords", dv),
         ("long_tail", lt), ("questions", qv), ("serp_analysis", sv), ("clusters", cv),
         ("total_opportunities", .int n)]),
       ("competitive_analysis", .dict [("error", .str e)]),
       ("content_strategy", C), ("completed_at", .str t2), ("recommendations", recs)]) := by
    simp [fullStrategyRun, hcne, hA, hK, hC, hCS, errSlot, bind, Except.bind, pure,
      Except.pure, hrecs]
  refine ⟨?_, ?_, ?_, ?_, ?_, ?_⟩ <;> rw [hfull] <;> rfl

/-- C8 witness: Scenario C with concrete collaborators — the
competitor-analysis collaborator raises `comp down`, the audit and keyword
sub-agents and the content-strategy step succeed; the task completes with the
error marker in the `competitive_analysis` slot and the sibling slots
unaffected. -/
theorem C8_full_strategy_partial_failure_witness :
    slotOf (fullStrategyRun strategyOraclesX "d" ["k"] ["x"] "s" "f")
        "competitive_analysis" = .ok (.dict [("error", .str "comp down")]) ∧
    slotOf (fullStrategyRun strategyOraclesX "d" ["k"] ["x"] "s" "f") "seo_audit" =
      .ok (.dict [("audit", .dict [("issues", .list [])]),
        ("recommendations", .list []), ("priority_fixes", .list []),
        ("summary", .dict [("critical_issues", .int 0), ("warnings", .int 0),
          ("overall_health", .str "good")])]) ∧
    slotOf (fullStrategyRun strategyOraclesX "d" ["k"] ["x"] "s" "f") "keyword_research" =
      .ok (.dict [("seed_keyword", .str "k"),
        ("discovered_keywords", .dict [("keywords", .list [])]),
        ("long_tail", .dict [("long_tail", .list [])]), ("questions", .list []),
        ("serp_analysis", .dict []), ("clusters", .dict []),
        ("total_opportunities", .int 0)]) ∧
    (runTaskFinal (fullStrategyRun strategyOraclesX "d" ["k"] ["x"] "s" "f")).status =
      TaskStatus.completed ∧
    (runTaskFinal (fullStrategyRun strategyOraclesX "d" ["k"] ["x"] "s" "f")).results.isSome
      = true ∧
    (runTaskFinal (fullStrategyRun strategyOraclesX "d" ["k"] ["x"] "s" "f")).error =
      Option.none :=
  C8_full_strategy_partial_failure strategyOraclesX "d" "k" [] ["x"] "s" "f" "comp down"
    _ _ _ (by simp) rfl rfl rfl rfl
